import Mathlib

/-!
Shallow embedding of the concurrency/timing layer of the PearVision
repository: the `ArduinoController` command consumer
(`src/app/Jetson Nano/inference.py` and `src/app/Jetson Orin/detect.py`,
whose `ArduinoController` classes are line-for-line identical in the parts
modelled here) and the `VideoStream` frame cache
(`src/app/Jetson Orin/detect.py`).

Modelling conventions:
* Wall-clock time is `ℤ`, in clock ticks of one second.  `time.time()` readings that the code takes at
  particular program points are supplied by the environment script.
* A serial write is an attempt that the environment lets succeed or fail
  (`serial.write` raising is a failed attempt); the Boolean oracles in the
  scripts decide each attempt's outcome.
* The unbounded `while self.running` loop is run over a finite list of
  per-iteration environment scripts; an arbitrary list covers every finite
  prefix of an execution.
-/

/-- Serial commands written to the Arduino: the byte strings
`'ON\n'` and `'OFF\n'` of the source. -/
inductive Cmd where
  | ON
  | OFF
deriving DecidableEq, BEq, Repr

/-- Mutable state of `ArduinoController` relevant to the claims:
the `command_count` dictionary, `last_command_time` and `running`. -/
structure ControllerState where
  command_count_ON : Nat
  command_count_OFF : Nat
  last_command_time : ℤ
  running : Bool
deriving DecidableEq, Repr

/-- `ArduinoController.__init__`: both counters start at `0`,
`running` is `True`, `last_command_time` is the construction time. -/
def initState (t0 : ℤ) : ControllerState :=
  { command_count_ON := 0
    command_count_OFF := 0
    last_command_time := t0
    running := true }

/-- `self.time_delay = 3` of `ArduinoController.__init__` (seconds). -/
def time_delay : ℤ := 3

/-- Observable actions on the serial device: a write attempt of a command
at a time, with the attempt's outcome, and `arduino.close()`. -/
inductive Event where
  | write (t : ℤ) (c : Cmd) (ok : Bool)
  | close
deriving DecidableEq, Repr

/-- `ArduinoController.send_command`: `arduino.write` either succeeds
(`writeOk = true`), after which the matching `command_count` entry is
incremented and `True` is returned, or raises, which is caught, logged and
answered with `False`, the counter untouched. -/
def send_command (s : ControllerState) (command : Cmd) (writeOk : Bool) :
    ControllerState × Bool :=
  if writeOk then
    (match command with
      | Cmd.ON => { s with command_count_ON := s.command_count_ON + 1 }
      | Cmd.OFF => { s with command_count_OFF := s.command_count_OFF + 1 },
     true)
  else
    (s, false)

/-- One result of `command_queue.get_nowait()` inside the collection loop:
a command, the `None` exit sentinel, or a `queue.Empty` exception. -/
inductive PollEvent where
  | item (c : Cmd)
  | sentinel
  | empty
deriving DecidableEq, Repr

/-- The inner collection loop of `process_commands` (Jetson Orin
`detect.py` lines 152-163): drain `get_nowait` results until the window's
deadline, appending commands; on the `None` sentinel set `running = False`
and break at once; `queue.Empty` just sleeps and continues.  The argument
lists the poll results that occur before the deadline; the value is the
collected command list and whether the sentinel was seen. -/
def collect : List PollEvent → List Cmd × Bool
  | [] => ([], false)
  | PollEvent.item c :: rest =>
      let p := collect rest
      (c :: p.1, p.2)
  | PollEvent.sentinel :: _ => ([], true)
  | PollEvent.empty :: rest => collect rest

/-- Environment script for one iteration of the `while self.running` loop:
the poll results of its collection phase, the `time.time()` reading at the
spacing gate (line 168), the `time.time()` reading stored into
`last_command_time` (line 175), and the outcomes the serial device would
give the iteration's ON and OFF write attempts. -/
structure WindowScript where
  events : List PollEvent
  tGate : ℤ
  tEnd : ℤ
  onOk : Bool
  offOk : Bool
deriving DecidableEq, Repr

/-- One iteration of the `while self.running` body of
`process_commands` (Jetson Orin `detect.py` lines 150-175): collect
commands; if the sentinel arrived, clear `running` and exit with no
action; else, when commands exist and at least `time_delay` elapsed since
`last_command_time`, count ON versus OFF votes, and on a strict ON
majority send ON and - only if that write succeeded - sleep 1 s and send
OFF, finally stamping `last_command_time`. -/
def processWindow (s : ControllerState) (w : WindowScript) :
    ControllerState × List Event :=
  let c := collect w.events
  let commands := c.1
  let s1 := if c.2 then { s with running := false } else s
  if s1.running = false then
    (s1, [])
  else if commands ≠ [] ∧ w.tGate - s1.last_command_time ≥ time_delay then
    let on_count := commands.count Cmd.ON
    let off_count := commands.count Cmd.OFF
    if off_count < on_count then
      let r1 := send_command s1 Cmd.ON w.onOk
      if r1.2 then
        let r2 := send_command r1.1 Cmd.OFF w.offOk
        ({ r2.1 with last_command_time := w.tEnd },
         [Event.write w.tGate Cmd.ON true,
          Event.write (w.tGate + 1) Cmd.OFF w.offOk])
      else
        ({ r1.1 with last_command_time := w.tEnd },
         [Event.write w.tGate Cmd.ON false])
    else
      ({ s1 with last_command_time := w.tEnd }, [])
  else
    (s1, [])

/-- The `while self.running` loop of `process_commands`, iterated over a
finite list of per-iteration environment scripts, returning the final
controller state and the concatenated serial-device trace. -/
def runWindows (s : ControllerState) : List WindowScript → ControllerState × List Event
  | [] => (s, [])
  | w :: ws =>
      if s.running = true then
        let p := processWindow s w
        let q := runWindows p.1 ws
        (q.1, p.2 ++ q.2)
      else
        (s, [])

/-- `max_retries = 3` of `ArduinoController.connect`. -/
def max_retries : Nat := 3

/-- The retry loop of `ArduinoController.connect`: while
`retry_count < max_retries`, attempt `serial.Serial(...)` - attempt number
`k` succeeds exactly when `oracle k` - returning `True` at once on
success, else incrementing `retry_count`.  The fuel argument is
`max_retries - retry_count`; the value is the result together with the
number of attempts made. -/
def connectAux (oracle : Nat → Bool) : Nat → Nat → Bool × Nat
  | _, 0 => (false, 0)
  | k, fuel + 1 =>
      if oracle k then
        (true, 1)
      else
        let r := connectAux oracle (k + 1) fuel
        (r.1, r.2 + 1)

/-- `ArduinoController.connect`: run the retry loop from `retry_count = 0`
with `max_retries = 3`; returns the Boolean result and how many
`serial.Serial` attempts were made. -/
def connect (oracle : Nat → Bool) : Bool × Nat :=
  connectAux oracle 0 max_retries

/-- Start times of the `serial.Serial` attempts made by `connect` when the
first attempt starts at `t`: each failed attempt is followed by
`time.sleep(2)` before the next (attempt durations themselves are
idealised to zero), and a successful attempt is the last. -/
def connectTimes (oracle : Nat → Bool) : Nat → Nat → ℤ → List ℤ
  | _, 0, _ => []
  | k, fuel + 1, t =>
      if oracle k then
        [t]
      else
        t :: connectTimes oracle (k + 1) fuel (t + 2)

/-- `ArduinoController.cleanup`: when `self.arduino` is set (the
connection was established), send a final OFF - a write attempt whose
failure is caught and logged - and close the connection; otherwise do
nothing. -/
def cleanup (s : ControllerState) (connected : Bool) (tClean : ℤ) (offOk : Bool) :
    ControllerState × List Event :=
  if connected then
    let r := send_command s Cmd.OFF offOk
    (r.1, [Event.write tClean Cmd.OFF offOk, Event.close])
  else
    (s, [])

/-- `ArduinoController.process_commands`: if `connect` fails, return with
no device interaction; otherwise run the command loop and - through the
`try/finally` - always run `cleanup` afterwards, with `self.arduino` set. -/
def process_commands (oracle : Nat → Bool) (ws : List WindowScript)
    (tClean : ℤ) (cleanOffOk : Bool) (s : ControllerState) :
    ControllerState × List Event :=
  if (connect oracle).1 then
    let r := runWindows s ws
    let c := cleanup r.1 true tClean cleanOffOk
    (c.1, r.2 ++ c.2)
  else
    (s, [])

/-- Number of successful write attempts of command `c` in a trace. -/
def succWrites (c : Cmd) (evs : List Event) : Nat :=
  evs.countP fun e =>
    match e with
    | Event.write _ c2 ok => c2 == c && ok
    | Event.close => false

/-- Start times of the ON write attempts in a trace: each actuation the
loop emits begins with its ON write, so these are the actuation start
times. -/
def onWriteTimes (evs : List Event) : List ℤ :=
  evs.filterMap fun e =>
    match e with
    | Event.write t Cmd.ON _ => some t
    | _ => none

/-- Timing sanity of an environment script, given a lower bound `t` on the
first iteration's clock readings: within an iteration the gate reading
precedes the `last_command_time` stamp, and the clock is monotone across
iterations.  These hold of any real execution because `time.time()` is
monotone and the stamp is taken after the gate. -/
def ScriptValid : ℤ → List WindowScript → Prop
  | _, [] => True
  | t, w :: ws => t ≤ w.tGate ∧ w.tGate ≤ w.tEnd ∧ ScriptValid w.tEnd ws

instance instDecidableScriptValid : (t : ℤ) → (ws : List WindowScript) →
    Decidable (ScriptValid t ws)
  | _, [] => Decidable.isTrue trivial
  | _t, w :: ws =>
      have := instDecidableScriptValid w.tEnd ws
      inferInstanceAs (Decidable (_ ∧ _ ∧ _))

/-- State of the Jetson Orin `VideoStream` frame cache: the `frame` slot
and `last_frame_time`, over an abstract frame type. -/
structure StreamState (Frame : Type) where
  frame : Option Frame
  last_frame_time : ℤ

/-- `VideoStream.__init__`: no frame yet, `last_frame_time` set to the
construction time. -/
def initStream (Frame : Type) (t0 : ℤ) : StreamState Frame :=
  { frame := none, last_frame_time := t0 }

/-- The frame-publication step of `VideoStream._run` (lines 60-62): under
the lock, overwrite the slot and stamp `last_frame_time` with the current
time. -/
def publish {Frame : Type} (s : StreamState Frame) (f : Frame) (now : ℤ) :
    StreamState Frame :=
  { s with frame := some f, last_frame_time := now }

/-- `VideoStream.read` (Jetson Orin `detect.py` lines 73-79): under the
lock, answer `(False, None)` when no frame was ever stored, `(False,
None)` when the stored frame is older than 5 seconds, else `(True, copy)`. -/
def VideoStream.read {Frame : Type} (s : StreamState Frame) (now : ℤ) :
    Bool × Option Frame :=
  match s.frame with
  | none => (false, none)
  | some f =>
      if now - s.last_frame_time > 5 then
        (false, none)
      else
        (true, some f)

/-- Unfolding lemma: a sentinel in the window's polls clears `running` and
produces no device action. -/
theorem processWindow_sentinel (s : ControllerState) (w : WindowScript)
    (hsent : (collect w.events).2 = true) :
    processWindow s w = ({ s with running := false }, []) := by
  simp [processWindow, hsent]

/-- Unfolding lemma: with the `running` flag already cleared and no
sentinel, an iteration does nothing. -/
theorem processWindow_notRunning (s : ControllerState) (w : WindowScript)
    (hrun : s.running = false) (hsent : (collect w.events).2 = false) :
    processWindow s w = (s, []) := by
  simp [processWindow, hrun, hsent]

/-- Unfolding lemma: with no sentinel and the command/spacing gate passed,
an OFF-majority or tied vote performs no write and stamps
`last_command_time`. -/
theorem processWindow_noMajority (s : ControllerState) (w : WindowScript)
    (hrun : s.running = true)
    (hsent : (collect w.events).2 = false)
    (hne : (collect w.events).1 ≠ [])
    (hgate : w.tGate - s.last_command_time ≥ time_delay)
    (hmaj : (collect w.events).1.count Cmd.ON ≤ (collect w.events).1.count Cmd.OFF) :
    processWindow s w = ({ s with last_command_time := w.tEnd }, []) := by
  simp [processWindow, hsent, hrun, hne, hgate, Nat.not_lt.mpr hmaj]

/-- Unfolding lemma: a strict ON majority with a succeeding ON write
performs the full pulse and increments the counters accordingly. -/
theorem processWindow_pulse (s : ControllerState) (w : WindowScript)
    (hrun : s.running = true)
    (hsent : (collect w.events).2 = false)
    (hne : (collect w.events).1 ≠ [])
    (hgate : w.tGate - s.last_command_time ≥ time_delay)
    (hmaj : (collect w.events).1.count Cmd.OFF < (collect w.events).1.count Cmd.ON)
    (honOk : w.onOk = true) :
    processWindow s w =
      ({ command_count_ON := s.command_count_ON + 1
         command_count_OFF := s.command_count_OFF + (if w.offOk then 1 else 0)
         last_command_time := w.tEnd
         running := s.running },
       [Event.write w.tGate Cmd.ON true,
        Event.write (w.tGate + 1) Cmd.OFF w.offOk]) := by
  cases hoff : w.offOk <;>
    simp [processWindow, send_command, hsent, hrun, hne, hgate, hmaj, honOk, hoff]

/-- Unfolding lemma: a strict ON majority whose ON write fails leaves the
counters alone, emits only that failed attempt, and still stamps
`last_command_time`. -/
theorem processWindow_pulse_onFail (s : ControllerState) (w : WindowScript)
    (hrun : s.running = true)
    (hsent : (collect w.events).2 = false)
    (hne : (collect w.events).1 ≠ [])
    (hgate : w.tGate - s.last_command_time ≥ time_delay)
    (hmaj : (collect w.events).1.count Cmd.OFF < (collect w.events).1.count Cmd.ON)
    (honOk : w.onOk = false) :
    processWindow s w =
      ({ s with last_command_time := w.tEnd },
       [Event.write w.tGate Cmd.ON false]) := by
  simp [processWindow, send_command, hsent, hrun, hne, hgate, hmaj, honOk]

/-- Unfolding lemma: with no sentinel, an empty command list or an
unsatisfied spacing gate leaves the state untouched with no action. -/
theorem processWindow_skip (s : ControllerState) (w : WindowScript)
    (hrun : s.running = true)
    (hsent : (collect w.events).2 = false)
    (hskip : ¬((collect w.events).1 ≠ [] ∧ w.tGate - s.last_command_time ≥ time_delay)) :
    processWindow s w = (s, []) := by
  simp only [processWindow, hsent]
  simp [hrun, hskip]

/-- Every iteration emits one of exactly three traces: nothing, a lone
failed ON attempt, or the full ON pulse. -/
theorem processWindow_shape (s : ControllerState) (w : WindowScript) :
    (processWindow s w).2 = [] ∨
    (processWindow s w).2 = [Event.write w.tGate Cmd.ON false] ∨
    (processWindow s w).2 =
      [Event.write w.tGate Cmd.ON true, Event.write (w.tGate + 1) Cmd.OFF w.offOk] := by
  by_cases hsent : (collect w.events).2 = true
  · rw [processWindow_sentinel s w hsent]; left; rfl
  · rw [Bool.not_eq_true] at hsent
    cases hrun : s.running
    · simp [processWindow, hrun, hsent]
    · by_cases hskip : (collect w.events).1 ≠ [] ∧ w.tGate - s.last_command_time ≥ time_delay
      · by_cases hmaj : (collect w.events).1.count Cmd.OFF < (collect w.events).1.count Cmd.ON
        · cases honOk : w.onOk
          · rw [processWindow_pulse_onFail s w hrun hsent hskip.1 hskip.2 hmaj honOk]
            right; left; rfl
          · rw [processWindow_pulse s w hrun hsent hskip.1 hskip.2 hmaj honOk]
            right; right; rfl
        · rw [processWindow_noMajority s w hrun hsent hskip.1 hskip.2 (Nat.not_lt.mp hmaj)]
          left; rfl
      · rw [processWindow_skip s w hrun hsent hskip]; left; rfl

/-- An iteration that saw no sentinel leaves the `running` flag as it was. -/
theorem processWindow_running (s : ControllerState) (w : WindowScript)
    (hsent : (collect w.events).2 = false) :
    (processWindow s w).1.running = s.running := by
  cases hrun : s.running
  · simp [processWindow, hrun, hsent]
  · by_cases hskip : (collect w.events).1 ≠ [] ∧ w.tGate - s.last_command_time ≥ time_delay
    · by_cases hmaj : (collect w.events).1.count Cmd.OFF < (collect w.events).1.count Cmd.ON
      · cases honOk : w.onOk
        · rw [processWindow_pulse_onFail s w hrun hsent hskip.1 hskip.2 hmaj honOk]
          exact hrun
        · rw [processWindow_pulse s w hrun hsent hskip.1 hskip.2 hmaj honOk]
          exact hrun
      · rw [processWindow_noMajority s w hrun hsent hskip.1 hskip.2 (Nat.not_lt.mp hmaj)]
        exact hrun
    · rw [processWindow_skip s w hrun hsent hskip]
      exact hrun

/-- `succWrites` distributes over trace concatenation. -/
theorem succWrites_append (c : Cmd) (a b : List Event) :
    succWrites c (a ++ b) = succWrites c a + succWrites c b :=
  List.countP_append _ _ _

/-- Counter bookkeeping of one iteration: each counter grows by exactly
the number of corresponding successful writes the iteration performed. -/
theorem processWindow_counts (s : ControllerState) (w : WindowScript) :
    (processWindow s w).1.command_count_ON
      = s.command_count_ON + succWrites Cmd.ON (processWindow s w).2 ∧
    (processWindow s w).1.command_count_OFF
      = s.command_count_OFF + succWrites Cmd.OFF (processWindow s w).2 := by
  by_cases hsent : (collect w.events).2 = true
  · rw [processWindow_sentinel s w hsent]; simp [succWrites]
  · rw [Bool.not_eq_true] at hsent
    cases hrun : s.running
    · simp [processWindow, hrun, hsent, succWrites]
    · by_cases hskip : (collect w.events).1 ≠ [] ∧ w.tGate - s.last_command_time ≥ time_delay
      · by_cases hmaj : (collect w.events).1.count Cmd.OFF < (collect w.events).1.count Cmd.ON
        · cases honOk : w.onOk
          · rw [processWindow_pulse_onFail s w hrun hsent hskip.1 hskip.2 hmaj honOk]
            simp [succWrites]
          · rw [processWindow_pulse s w hrun hsent hskip.1 hskip.2 hmaj honOk]
            cases hoff : w.offOk <;> simp [succWrites, hoff, List.countP_cons] <;> decide
        · rw [processWindow_noMajority s w hrun hsent hskip.1 hskip.2 (Nat.not_lt.mp hmaj)]
          simp [succWrites]
      · rw [processWindow_skip s w hrun hsent hskip]
        simp [succWrites]

/-- Counter bookkeeping over the whole loop. -/
theorem runWindows_counts : ∀ (ws : List WindowScript) (s : ControllerState),
    (runWindows s ws).1.command_count_ON
      = s.command_count_ON + succWrites Cmd.ON (runWindows s ws).2 ∧
    (runWindows s ws).1.command_count_OFF
      = s.command_count_OFF + succWrites Cmd.OFF (runWindows s ws).2
  | [], s => by simp [runWindows, succWrites]
  | w :: ws, s => by
      by_cases hrun : s.running = true
      · have hw := processWindow_counts s w
        have ih := runWindows_counts ws (processWindow s w).1
        simp only [runWindows, hrun, if_pos, succWrites_append]
        constructor
        · rw [ih.1, hw.1]; ring
        · rw [ih.2, hw.2]; ring
      · simp [runWindows, hrun, succWrites]

/-- Counter bookkeeping of `cleanup`. -/
theorem cleanup_counts (s : ControllerState) (connected : Bool) (tClean : ℤ) (offOk : Bool) :
    (cleanup s connected tClean offOk).1.command_count_ON
      = s.command_count_ON + succWrites Cmd.ON (cleanup s connected tClean offOk).2 ∧
    (cleanup s connected tClean offOk).1.command_count_OFF
      = s.command_count_OFF + succWrites Cmd.OFF (cleanup s connected tClean offOk).2 := by
  cases connected <;> cases offOk <;>
    simp [cleanup, send_command, succWrites, List.countP_cons]
  decide

/-- `last_command_time` after an iteration: it never moves backwards, and
never past the iteration's stamp reading. -/
theorem processWindow_last (s : ControllerState) (w : WindowScript)
    (hts : s.last_command_time ≤ w.tGate) (hte : w.tGate ≤ w.tEnd) :
    s.last_command_time ≤ (processWindow s w).1.last_command_time ∧
    (processWindow s w).1.last_command_time ≤ w.tEnd := by
  by_cases hsent : (collect w.events).2 = true
  · rw [processWindow_sentinel s w hsent]
    exact ⟨le_refl _, hts.trans hte⟩
  · rw [Bool.not_eq_true] at hsent
    cases hrun : s.running
    · rw [processWindow_notRunning s w hrun hsent]
      exact ⟨le_refl _, hts.trans hte⟩
    · by_cases hskip : (collect w.events).1 ≠ [] ∧ w.tGate - s.last_command_time ≥ time_delay
      · by_cases hmaj : (collect w.events).1.count Cmd.OFF < (collect w.events).1.count Cmd.ON
        · cases honOk : w.onOk
          · rw [processWindow_pulse_onFail s w hrun hsent hskip.1 hskip.2 hmaj honOk]
            exact ⟨hts.trans hte, le_refl _⟩
          · rw [processWindow_pulse s w hrun hsent hskip.1 hskip.2 hmaj honOk]
            exact ⟨hts.trans hte, le_refl _⟩
        · rw [processWindow_noMajority s w hrun hsent hskip.1 hskip.2 (Nat.not_lt.mp hmaj)]
          exact ⟨hts.trans hte, le_refl _⟩
      · rw [processWindow_skip s w hrun hsent hskip]
        exact ⟨le_refl _, hts.trans hte⟩

/-- ON write attempts of one iteration: none, or a single one at the gate
reading, which then satisfied the spacing gate and caused
`last_command_time` to be stamped with the iteration's end reading. -/
theorem processWindow_onTimes (s : ControllerState) (w : WindowScript) :
    onWriteTimes (processWindow s w).2 = [] ∨
    (onWriteTimes (processWindow s w).2 = [w.tGate] ∧
     s.last_command_time + time_delay ≤ w.tGate ∧
     (processWindow s w).1.last_command_time = w.tEnd) := by
  by_cases hsent : (collect w.events).2 = true
  · rw [processWindow_sentinel s w hsent]; left; rfl
  · rw [Bool.not_eq_true] at hsent
    cases hrun : s.running
    · rw [processWindow_notRunning s w hrun hsent]; left; rfl
    · by_cases hskip : (collect w.events).1 ≠ [] ∧ w.tGate - s.last_command_time ≥ time_delay
      · have hgate : s.last_command_time + time_delay ≤ w.tGate := by
          have := hskip.2
          omega
        by_cases hmaj : (collect w.events).1.count Cmd.OFF < (collect w.events).1.count Cmd.ON
        · cases honOk : w.onOk
          · rw [processWindow_pulse_onFail s w hrun hsent hskip.1 hskip.2 hmaj honOk]
            right
            exact ⟨rfl, hgate, rfl⟩
          · rw [processWindow_pulse s w hrun hsent hskip.1 hskip.2 hmaj honOk]
            right
            refine ⟨?_, hgate, rfl⟩
            simp [onWriteTimes]
        · rw [processWindow_noMajority s w hrun hsent hskip.1 hskip.2 (Nat.not_lt.mp hmaj)]
          left; rfl
      · rw [processWindow_skip s w hrun hsent hskip]; left; rfl

/-- `onWriteTimes` distributes over trace concatenation. -/
theorem onWriteTimes_append (a b : List Event) :
    onWriteTimes (a ++ b) = onWriteTimes a ++ onWriteTimes b :=
  List.filterMap_append _ _ _

/-- Every actuation the loop starts comes at least `time_delay` after the
`last_command_time` the loop began with. -/
theorem runWindows_onTimes_lb : ∀ (ws : List WindowScript) (s : ControllerState) (t : ℤ),
    ScriptValid t ws → s.last_command_time ≤ t →
    ∀ x ∈ onWriteTimes (runWindows s ws).2, s.last_command_time + time_delay ≤ x
  | [], s, t, _, _, x => by simp [runWindows, onWriteTimes]
  | w :: ws, s, t, hv, hle, x => by
      by_cases hrun : s.running = true
      · simp only [runWindows, hrun, if_pos, onWriteTimes_append, List.mem_append]
        have hts : s.last_command_time ≤ w.tGate := hle.trans hv.1
        have hlast := processWindow_last s w hts hv.2.1
        intro hx
        rcases hx with hx | hx
        · rcases processWindow_onTimes s w with hnone | ⟨heq, hgate, _⟩
          · rw [hnone] at hx; simp at hx
          · rw [heq] at hx
            simp at hx
            rw [hx]
            exact hgate
        · have ih := runWindows_onTimes_lb ws (processWindow s w).1 w.tEnd hv.2.2 hlast.2 x hx
          have := hlast.1
          omega
      · simp [runWindows, hrun, onWriteTimes]

/-- Successive actuation starts of the loop are at least `time_delay`
apart. -/
theorem runWindows_onTimes_chain : ∀ (ws : List WindowScript) (s : ControllerState) (t : ℤ),
    ScriptValid t ws → s.last_command_time ≤ t →
    List.Chain' (fun a b => a + time_delay ≤ b) (onWriteTimes (runWindows s ws).2)
  | [], s, t, _, _ => by simp [runWindows, onWriteTimes]
  | w :: ws, s, t, hv, hle => by
      by_cases hrun : s.running = true
      · simp only [runWindows, hrun, if_pos, onWriteTimes_append]
        have hts : s.last_command_time ≤ w.tGate := hle.trans hv.1
        have hlast := processWindow_last s w hts hv.2.1
        have ih := runWindows_onTimes_chain ws (processWindow s w).1 w.tEnd hv.2.2 hlast.2
        rcases processWindow_onTimes s w with hnone | ⟨heq, _, hstamp⟩
        · rw [hnone]; simpa using ih
        · rw [heq]
          rw [List.singleton_append, List.chain'_cons']
          refine ⟨?_, ih⟩
          intro b hb
          have hbmem : b ∈ onWriteTimes (runWindows (processWindow s w).1 ws).2 :=
            List.mem_of_mem_head? hb
          have hlb := runWindows_onTimes_lb ws (processWindow s w).1 w.tEnd hv.2.2 hlast.2 b hbmem
          rw [hstamp] at hlb
          have := hv.2.1
          omega
      · simp [runWindows, hrun, onWriteTimes]

/-- The retry loop makes at most `fuel` attempts. -/
theorem connectAux_attempts_le : ∀ (oracle : Nat → Bool) (k fuel : Nat),
    (connectAux oracle k fuel).2 ≤ fuel
  | _, _, 0 => le_refl _
  | oracle, k, fuel + 1 => by
      by_cases h : oracle k = true
      · simp [connectAux, h]
      · simp only [connectAux, h]
        simp only [Bool.false_eq_true, if_false]
        exact Nat.succ_le_succ (connectAux_attempts_le oracle (k + 1) fuel)

/-- The retry loop succeeds exactly when some attempt within its budget
would succeed. -/
theorem connectAux_true_iff : ∀ (oracle : Nat → Bool) (k fuel : Nat),
    (connectAux oracle k fuel).1 = true ↔ ∃ j, j < fuel ∧ oracle (k + j) = true
  | oracle, k, 0 => by simp [connectAux]
  | oracle, k, fuel + 1 => by
      by_cases h : oracle k = true
      · simp only [connectAux, h, if_true, true_iff]
        exact ⟨0, Nat.succ_pos _, by simpa using h⟩
      · simp only [connectAux, h]
        simp only [Bool.false_eq_true, if_false]
        rw [connectAux_true_iff oracle (k + 1) fuel]
        constructor
        · rintro ⟨j, hj, hs⟩
          exact ⟨j + 1, Nat.succ_lt_succ hj, by rw [← hs]; ring_nf⟩
        · rintro ⟨j, hj, hs⟩
          cases j with
          | zero => simp at hs; exact absurd hs h
          | succ i =>
              refine ⟨i, Nat.lt_of_succ_lt_succ hj, ?_⟩
              rw [← hs]; ring_nf
  
/-- When attempt `j` (0-based, within budget) is the first to succeed, the
loop stops right there with `j + 1` attempts made and reports success. -/
theorem connectAux_first : ∀ (oracle : Nat → Bool) (k fuel j : Nat),
    j < fuel → oracle (k + j) = true → (∀ i, i < j → oracle (k + i) = false) →
    connectAux oracle k fuel = (true, j + 1)
  | oracle, k, fuel + 1, 0, _, hs, _ => by
      simp at hs
      simp [connectAux, hs]
  | oracle, k, fuel + 1, j + 1, hj, hs, hmin => by
      have hk : oracle k = false := by simpa using hmin 0 (Nat.succ_pos _)
      have ih := connectAux_first oracle (k + 1) fuel j (Nat.lt_of_succ_lt_succ hj)
        (by rw [← hs]; ring_nf)
        (fun i hi => by
          have := hmin (i + 1) (Nat.succ_lt_succ hi)
          rw [← this]; ring_nf)
      simp only [connectAux, hk]
      simp only [Bool.false_eq_true, if_false]
      rw [ih]

/-- Attempt start times: each failed attempt is followed by exactly the
2-second back-off before the next attempt starts. -/
theorem connectTimes_chain : ∀ (oracle : Nat → Bool) (fuel k : Nat) (t : ℤ),
    List.Chain' (fun a b => b = a + 2) (connectTimes oracle k fuel t)
  | _, 0, _, _ => List.chain'_nil
  | oracle, fuel + 1, k, t => by
      by_cases h : oracle k = true
      · simp [connectTimes, h]
      · simp only [connectTimes, h]
        simp only [Bool.false_eq_true, if_false]
        rw [List.chain'_cons']
        refine ⟨?_, connectTimes_chain oracle fuel (k + 1) (t + 2)⟩
        intro b hb
        cases fuel with
        | zero => simp [connectTimes] at hb
        | succ f =>
            by_cases h2 : oracle (k + 1) = true <;>
              simp [connectTimes, h2] at hb <;> omega

/-- With the `running` flag already cleared, the loop exits at once. -/
theorem runWindows_notRunning (s : ControllerState) (ws : List WindowScript)
    (hrun : s.running = false) :
    runWindows s ws = (s, []) := by
  cases ws <;> simp [runWindows, hrun]

/-- C1: the claim as stated is false on the code: an OFF-majority window
performs no actuation at all - `process_commands` writes nothing unless
the ON votes strictly exceed the OFF votes - whereas the claim promises an
OFF actuation.  Concretely: a window collecting two OFF decisions (spacing
gate satisfied, starting from a fresh controller) yields an empty device
trace. -/
theorem C1_counterexample :
    ((collect [PollEvent.item Cmd.OFF, PollEvent.item Cmd.OFF]).1.count Cmd.OFF = 2 ∧
     (collect [PollEvent.item Cmd.OFF, PollEvent.item Cmd.OFF]).1.count Cmd.ON = 0) ∧
    (processWindow (initState 0)
      { events := [PollEvent.item Cmd.OFF, PollEvent.item Cmd.OFF],
        tGate := 10, tEnd := 10, onOk := true, offOk := true }).2 = [] := by
  decide

/-- C1 (amended): for a window that collected at least one decision, saw
no sentinel and passed the spacing gate, the consumer starts an ON
actuation iff the ON votes strictly exceed the OFF votes (so a tie
actuates nothing); otherwise - including ties and OFF majorities - it
performs no write at all rather than an explicit OFF. -/
theorem C1_window_vote (s : ControllerState) (w : WindowScript)
    (hrun : s.running = true) (hsent : (collect w.events).2 = false)
    (hne : (collect w.events).1 ≠ [])
    (hgate : w.tGate - s.last_command_time ≥ time_delay) :
    ((processWindow s w).2 ≠ [] ↔
      (collect w.events).1.count Cmd.OFF < (collect w.events).1.count Cmd.ON) ∧
    ((collect w.events).1.count Cmd.OFF < (collect w.events).1.count Cmd.ON →
      (processWindow s w).2.head? = some (Event.write w.tGate Cmd.ON w.onOk)) := by
  by_cases hmaj : (collect w.events).1.count Cmd.OFF < (collect w.events).1.count Cmd.ON
  · cases honOk : w.onOk
    · rw [processWindow_pulse_onFail s w hrun hsent hne hgate hmaj honOk]
      exact ⟨by simp [hmaj], fun _ => rfl⟩
    · rw [processWindow_pulse s w hrun hsent hne hgate hmaj honOk]
      exact ⟨by simp [hmaj], fun _ => rfl⟩
  · rw [processWindow_noMajority s w hrun hsent hne hgate (Nat.not_lt.mp hmaj)]
    exact ⟨by simp [hmaj], fun h => absurd h hmaj⟩

/-- C1 witness: a 2-ON / 1-OFF window starting from a fresh controller. -/
theorem C1_window_vote_witness :
    (initState 0).running = true ∧
    (collect [PollEvent.item Cmd.ON, PollEvent.item Cmd.ON, PollEvent.item Cmd.OFF]).2 = false ∧
    (collect [PollEvent.item Cmd.ON, PollEvent.item Cmd.ON, PollEvent.item Cmd.OFF]).1 ≠ [] ∧
    (10 : ℤ) - (initState 0).last_command_time ≥ time_delay ∧
    (((processWindow (initState 0)
        { events := [PollEvent.item Cmd.ON, PollEvent.item Cmd.ON, PollEvent.item Cmd.OFF],
          tGate := 10, tEnd := 11, onOk := true, offOk := true }).2 ≠ [] ↔
      (collect [PollEvent.item Cmd.ON, PollEvent.item Cmd.ON, PollEvent.item Cmd.OFF]).1.count Cmd.OFF
        < (collect [PollEvent.item Cmd.ON, PollEvent.item Cmd.ON, PollEvent.item Cmd.OFF]).1.count Cmd.ON) ∧
     ((collect [PollEvent.item Cmd.ON, PollEvent.item Cmd.ON, PollEvent.item Cmd.OFF]).1.count Cmd.OFF
        < (collect [PollEvent.item Cmd.ON, PollEvent.item Cmd.ON, PollEvent.item Cmd.OFF]).1.count Cmd.ON →
      (processWindow (initState 0)
        { events := [PollEvent.item Cmd.ON, PollEvent.item Cmd.ON, PollEvent.item Cmd.OFF],
          tGate := 10, tEnd := 11, onOk := true, offOk := true }).2.head?
        = some (Event.write 10 Cmd.ON true))) :=
  ⟨by decide, by decide, by decide, by decide,
   C1_window_vote (initState 0) _ (by decide) (by decide) (by decide) (by decide)⟩

/-- C2: the claim as stated is false on the code: an elapsed window with
zero decisions emits no `ActuatorCommand` at all - the loop only acts when
`commands` is non-empty - whereas the claim promises exactly one (an OFF).
Concretely: an elapsed empty window on a fresh controller leaves both the
state and the device trace untouched. -/
theorem C2_counterexample :
    processWindow (initState 0)
      { events := [PollEvent.empty], tGate := 10, tEnd := 10, onOk := true, offOk := true }
      = (initState 0, []) := by
  decide

/-- C2 (amended): per loop iteration the device trace is one of exactly
three possibilities - no write at all (empty window, no ON majority,
spacing gate unsatisfied, or sentinel), a single failed ON attempt, or the
single ON pulse (one ON write and, the ON write having succeeded, one OFF
write 1 s later).  In particular a window never produces more than one
actuation, and an empty window produces none (not an OFF). -/
theorem C2_window_emissions (s : ControllerState) (w : WindowScript) :
    (processWindow s w).2 = [] ∨
    (processWindow s w).2 = [Event.write w.tGate Cmd.ON false] ∨
    (processWindow s w).2 =
      [Event.write w.tGate Cmd.ON true, Event.write (w.tGate + 1) Cmd.OFF w.offOk] :=
  processWindow_shape s w

/-- C3: an ON actuation is exactly one ON write followed 1 s (the dwell)
later by exactly one OFF write attempt - the OFF is issued whenever the ON
write succeeded, whatever the device then does to it - and however many ON
decisions the window collected beyond the majority, only this single pulse
is emitted; decisions arriving during the dwell sit in the queue for the
next window and never extend the current pulse. -/
theorem C3_pulse (s : ControllerState) (w : WindowScript)
    (hrun : s.running = true) (hsent : (collect w.events).2 = false)
    (hne : (collect w.events).1 ≠ [])
    (hgate : w.tGate - s.last_command_time ≥ time_delay)
    (hmaj : (collect w.events).1.count Cmd.OFF < (collect w.events).1.count Cmd.ON)
    (honOk : w.onOk = true) :
    (processWindow s w).2 =
      [Event.write w.tGate Cmd.ON true, Event.write (w.tGate + 1) Cmd.OFF w.offOk] := by
  rw [processWindow_pulse s w hrun hsent hne hgate hmaj honOk]

/-- C3 witness: a window that collected three ON decisions still produces
the single two-write pulse. -/
theorem C3_pulse_witness :
    (initState 0).running = true ∧
    (collect [PollEvent.item Cmd.ON, PollEvent.item Cmd.ON, PollEvent.item Cmd.ON]).2 = false ∧
    (collect [PollEvent.item Cmd.ON, PollEvent.item Cmd.ON, PollEvent.item Cmd.ON]).1 ≠ [] ∧
    (10 : ℤ) - (initState 0).last_command_time ≥ time_delay ∧
    (collect [PollEvent.item Cmd.ON, PollEvent.item Cmd.ON, PollEvent.item Cmd.ON]).1.count Cmd.OFF
      < (collect [PollEvent.item Cmd.ON, PollEvent.item Cmd.ON, PollEvent.item Cmd.ON]).1.count Cmd.ON ∧
    (processWindow (initState 0)
      { events := [PollEvent.item Cmd.ON, PollEvent.item Cmd.ON, PollEvent.item Cmd.ON],
        tGate := 10, tEnd := 11, onOk := true, offOk := true }).2 =
      [Event.write 10 Cmd.ON true, Event.write 11 Cmd.OFF true] :=
  ⟨by decide, by decide, by decide, by decide, by decide,
   C3_pulse (initState 0) _ (by decide) (by decide) (by decide) (by decide) (by decide) rfl⟩

/-- C4: `connect` makes at most `max_retries = 3` attempts, with the fixed
2-second back-off between consecutive attempt starts; it reports success
iff some attempt within the budget succeeds, and when attempt `j` (0-based)
is the first to succeed it stops right there, having made `j + 1` attempts
and none after. -/
theorem C4_connect_retries (oracle : Nat → Bool) (t0 : ℤ) :
    (connect oracle).2 ≤ max_retries ∧
    ((connect oracle).1 = true ↔ ∃ j, j < max_retries ∧ oracle j = true) ∧
    (∀ j, j < max_retries → oracle j = true → (∀ i, i < j → oracle i = false) →
      connect oracle = (true, j + 1)) ∧
    List.Chain' (fun a b => b = a + 2) (connectTimes oracle 0 max_retries t0) := by
  refine ⟨connectAux_attempts_le oracle 0 max_retries, ?_, ?_,
    connectTimes_chain oracle max_retries 0 t0⟩
  · simpa using connectAux_true_iff oracle 0 max_retries
  · intro j hj hs hmin
    exact connectAux_first oracle 0 max_retries j hj (by simpa using hs)
      (fun i hi => by simpa using hmin i hi)

/-- C4 witness: a device that answers only the second attempt: two
attempts made, success, back-off respected. -/
theorem C4_connect_retries_witness :
    ((connect fun k => k == 1).2 ≤ max_retries ∧
     ((connect fun k => k == 1).1 = true ↔ ∃ j, j < max_retries ∧ (fun k => k == 1) j = true) ∧
     (∀ j, j < max_retries → (fun k => k == 1) j = true →
        (∀ i, i < j → (fun k => k == 1) i = false) →
        connect (fun k => k == 1) = (true, j + 1)) ∧
     List.Chain' (fun a b => b = a + 2) (connectTimes (fun k => k == 1) 0 max_retries 0)) ∧
    connect (fun k => k == 1) = (true, 2) :=
  ⟨C4_connect_retries (fun k => k == 1) 0, by decide⟩

/-- C5: whenever the connection was established, every exit of the
command-processing loop - sentinel stop, loop truncated at any point, any
vote history, any write outcomes - runs `cleanup`, whose trace is a final
OFF write followed by closing the connection: the device trace always ends
with that OFF write and the close. -/
theorem C5_cleanup_on_exit (oracle : Nat → Bool) (ws : List WindowScript)
    (tClean : ℤ) (cleanOffOk : Bool) (s : ControllerState)
    (hconn : (connect oracle).1 = true) :
    ∃ evs, (process_commands oracle ws tClean cleanOffOk s).2
      = evs ++ [Event.write tClean Cmd.OFF cleanOffOk, Event.close] := by
  refine ⟨(runWindows s ws).2, ?_⟩
  simp [process_commands, hconn, cleanup]

/-- C5 witness: a run that pulses once and then receives the sentinel
still ends with the final OFF write and the close. -/
theorem C5_cleanup_on_exit_witness :
    (connect fun _ => true).1 = true ∧
    ∃ evs, (process_commands (fun _ => true)
        [{ events := [PollEvent.item Cmd.ON], tGate := 10, tEnd := 11, onOk := true, offOk := true },
         { events := [PollEvent.sentinel], tGate := 20, tEnd := 20, onOk := true, offOk := true }]
        30 true (initState 0)).2
      = evs ++ [Event.write 30 Cmd.OFF true, Event.close] :=
  ⟨by decide,
   C5_cleanup_on_exit (fun _ => true) _ 30 true (initState 0) (by decide)⟩

/-- C6: the frame-cache read returns no frame before any publication ever
happened, returns the published frame while it is at most 5 seconds old,
and returns no frame once it is strictly older than 5 seconds with no
intervening publish. -/
theorem C6_frame_cache (F : Type) (t0 : ℤ) (s : StreamState F) (f : F)
    (tp now now2 : ℤ) (hfresh : now - tp ≤ 5) (hstale : now2 - tp > 5) :
    VideoStream.read (initStream F t0) now = (false, none) ∧
    VideoStream.read (publish s f tp) now = (true, some f) ∧
    VideoStream.read (publish s f tp) now2 = (false, none) := by
  refine ⟨rfl, ?_, ?_⟩
  · simp [VideoStream.read, publish, not_lt.mpr hfresh]
  · simp [VideoStream.read, publish, hstale]

/-- C6 witness: publish at t = 1, read at t = 4 (fresh) and t = 7
(stale), plus a read before any publish. -/
theorem C6_frame_cache_witness :
    ((4 : ℤ) - 1 ≤ 5 ∧ (7 : ℤ) - 1 > 5) ∧
    (VideoStream.read (initStream Nat 0) 4 = (false, none) ∧
     VideoStream.read (publish (initStream Nat 0) 42 1) 4 = (true, some 42) ∧
     VideoStream.read (publish (initStream Nat 0) 42 1) 7 = (false, none)) :=
  ⟨⟨by decide, by decide⟩,
   C6_frame_cache Nat 0 (initStream Nat 0) 42 1 4 7 (by decide) (by decide)⟩

/-- C7: a failed serial write leaves the session state untouched and
reports `False` instead of raising (`send_command` catches and logs); an
iteration whose ON write fails leaves both counters unchanged and the
`running` flag intact, and the loop goes on to process the remaining
windows exactly as it would have. -/
theorem C7_write_failure (s : ControllerState) (c : Cmd) (w : WindowScript)
    (ws : List WindowScript) (hsent : (collect w.events).2 = false) :
    send_command s c false = (s, false) ∧
    (processWindow s w).1.running = s.running ∧
    (w.onOk = false →
      (processWindow s w).1.command_count_ON = s.command_count_ON ∧
      (processWindow s w).1.command_count_OFF = s.command_count_OFF) ∧
    (s.running = true →
      runWindows s (w :: ws)
        = ((runWindows (processWindow s w).1 ws).1,
           (processWindow s w).2 ++ (runWindows (processWindow s w).1 ws).2)) := by
  refine ⟨by simp [send_command], processWindow_running s w hsent, ?_, ?_⟩
  · intro honOk
    cases hrun : s.running
    · rw [processWindow_notRunning s w hrun hsent]
      exact ⟨rfl, rfl⟩
    · by_cases hskip : (collect w.events).1 ≠ [] ∧ w.tGate - s.last_command_time ≥ time_delay
      · by_cases hmaj : (collect w.events).1.count Cmd.OFF < (collect w.events).1.count Cmd.ON
        · rw [processWindow_pulse_onFail s w hrun hsent hskip.1 hskip.2 hmaj honOk]
          exact ⟨rfl, rfl⟩
        · rw [processWindow_noMajority s w hrun hsent hskip.1 hskip.2 (Nat.not_lt.mp hmaj)]
          exact ⟨rfl, rfl⟩
      · rw [processWindow_skip s w hrun hsent hskip]
        exact ⟨rfl, rfl⟩
  · intro hrun
    simp [runWindows, hrun]

/-- C7 witness: an ON-majority window whose ON write fails: counters
unchanged, still running, and the next window processed normally. -/
theorem C7_write_failure_witness :
    (collect [PollEvent.item Cmd.ON]).2 = false ∧
    (send_command (initState 0) Cmd.ON false = (initState 0, false) ∧
     (processWindow (initState 0)
        { events := [PollEvent.item Cmd.ON], tGate := 10, tEnd := 10, onOk := false, offOk := true }).1.running
       = (initState 0).running ∧
     (({ events := [PollEvent.item Cmd.ON], tGate := 10, tEnd := 10, onOk := false, offOk := true } : WindowScript).onOk = false →
       (processWindow (initState 0)
          { events := [PollEvent.item Cmd.ON], tGate := 10, tEnd := 10, onOk := false, offOk := true }).1.command_count_ON
         = (initState 0).command_count_ON ∧
       (processWindow (initState 0)
          { events := [PollEvent.item Cmd.ON], tGate := 10, tEnd := 10, onOk := false, offOk := true }).1.command_count_OFF
         = (initState 0).command_count_OFF) ∧
     ((initState 0).running = true →
       runWindows (initState 0)
          ({ events := [PollEvent.item Cmd.ON], tGate := 10, tEnd := 10, onOk := false, offOk := true } ::
            [{ events := [PollEvent.item Cmd.ON], tGate := 20, tEnd := 21, onOk := true, offOk := true }])
         = ((runWindows (processWindow (initState 0)
              { events := [PollEvent.item Cmd.ON], tGate := 10, tEnd := 10, onOk := false, offOk := true }).1
              [{ events := [PollEvent.item Cmd.ON], tGate := 20, tEnd := 21, onOk := true, offOk := true }]).1,
            (processWindow (initState 0)
              { events := [PollEvent.item Cmd.ON], tGate := 10, tEnd := 10, onOk := false, offOk := true }).2 ++
            (runWindows (processWindow (initState 0)
              { events := [PollEvent.item Cmd.ON], tGate := 10, tEnd := 10, onOk := false, offOk := true }).1
              [{ events := [PollEvent.item Cmd.ON], tGate := 20, tEnd := 21, onOk := true, offOk := true }]).2))) :=
  ⟨by decide,
   C7_write_failure (initState 0) Cmd.ON _
     [{ events := [PollEvent.item Cmd.ON], tGate := 20, tEnd := 21, onOk := true, offOk := true }]
     (by decide)⟩

/-- C8: in every execution of the command consumer - any connect outcome,
any window history whose clock readings are consistent with real time -
the start times of successive actuations (each actuation starts with its
ON write) are at least `time_delay = 3` seconds apart: the spacing gate
compares the gate-time reading against `last_command_time`, which is
stamped no earlier than the actuation start. -/
theorem C8_min_spacing (oracle : Nat → Bool) (ws : List WindowScript)
    (tClean : ℤ) (cleanOffOk : Bool) (s : ControllerState)
    (hv : ScriptValid s.last_command_time ws) :
    List.Chain' (fun a b => a + time_delay ≤ b)
      (onWriteTimes (process_commands oracle ws tClean cleanOffOk s).2) := by
  by_cases hconn : (connect oracle).1 = true
  · simp only [process_commands, hconn, if_true, onWriteTimes_append]
    have hclean : onWriteTimes (cleanup (runWindows s ws).1 true tClean cleanOffOk).2 = [] := by
      simp [cleanup, onWriteTimes]
    rw [hclean, List.append_nil]
    exact runWindows_onTimes_chain ws s s.last_command_time hv (le_refl _)
  · rw [Bool.not_eq_true] at hconn
    simp [process_commands, hconn, onWriteTimes]

/-- C8 witness: two ON-majority windows at gate times 10 and 20: the two
actuation starts are 10 ≥ 3 apart. -/
theorem C8_min_spacing_witness :
    ScriptValid (initState 0).last_command_time
      [{ events := [PollEvent.item Cmd.ON], tGate := 10, tEnd := 11, onOk := true, offOk := true },
       { events := [PollEvent.item Cmd.ON], tGate := 20, tEnd := 21, onOk := true, offOk := true }] ∧
    List.Chain' (fun a b => a + time_delay ≤ b)
      (onWriteTimes (process_commands (fun _ => true)
        [{ events := [PollEvent.item Cmd.ON], tGate := 10, tEnd := 11, onOk := true, offOk := true },
         { events := [PollEvent.item Cmd.ON], tGate := 20, tEnd := 21, onOk := true, offOk := true }]
        30 true (initState 0)).2) :=
  ⟨by decide,
   C8_min_spacing (fun _ => true) _ 30 true (initState 0) (by decide)⟩

/-- C9: the claim as stated is false on the code: on the `None` sentinel
the consumer breaks out of the loop before the vote, so the partially
accumulated window is discarded, not flushed.  Concretely: two ON
decisions followed by the sentinel produce no ON write anywhere in the
trace - only `cleanup`'s final OFF write and the close. -/
theorem C9_counterexample :
    (collect [PollEvent.item Cmd.ON, PollEvent.item Cmd.ON, PollEvent.sentinel]).1
        = [Cmd.ON, Cmd.ON] ∧
    (process_commands (fun _ => true)
        [{ events := [PollEvent.item Cmd.ON, PollEvent.item Cmd.ON, PollEvent.sentinel],
           tGate := 10, tEnd := 10, onOk := true, offOk := true }]
        20 true (initState 0)).2
      = [Event.write 20 Cmd.OFF true, Event.close] := by
  decide

/-- C9 (amended): when the sentinel arrives, the consumer clears `running`
and exits without emitting any command for the decisions already
accumulated in the current window - they are silently discarded - and then
runs the controller shutdown, so the whole remaining trace is exactly
`cleanup`'s final OFF write and the close. -/
theorem C9_sentinel_discards (oracle : Nat → Bool) (ws : List WindowScript)
    (tClean : ℤ) (cleanOffOk : Bool) (s : ControllerState) (w : WindowScript)
    (hconn : (connect oracle).1 = true) (hrun : s.running = true)
    (hsent : (collect w.events).2 = true) :
    (process_commands oracle (w :: ws) tClean cleanOffOk s).2
      = [Event.write tClean Cmd.OFF cleanOffOk, Event.close] := by
  have h1 := processWindow_sentinel s w hsent
  have h2 : runWindows ({ s with running := false } : ControllerState) ws
      = ({ s with running := false }, []) :=
    runWindows_notRunning _ ws rfl
  simp [process_commands, hconn, runWindows, hrun, h1, h2, cleanup]

/-- C9 amended witness: one ON decision then the sentinel, on a connected
fresh controller. -/
theorem C9_sentinel_discards_witness :
    (connect fun _ => true).1 = true ∧
    (initState 0).running = true ∧
    (collect [PollEvent.item Cmd.ON, PollEvent.sentinel]).2 = true ∧
    (process_commands (fun _ => true)
        [{ events := [PollEvent.item Cmd.ON, PollEvent.sentinel],
           tGate := 10, tEnd := 10, onOk := true, offOk := true }]
        20 true (initState 0)).2
      = [Event.write 20 Cmd.OFF true, Event.close] :=
  ⟨by decide, by decide, by decide,
   C9_sentinel_discards (fun _ => true) [] 20 true (initState 0) _
     (by decide) (by decide) (by decide)⟩

/-- C10: the session counters track successful writes exactly: over any
run of the loop each counter grows by precisely the number of successful
writes of its command in the emitted trace, and for a freshly constructed
controller the counters after any full `process_commands` run (cleanup
included) equal the number of successful ON and OFF writes in its whole
trace. -/
theorem C10_counters (oracle : Nat → Bool) (ws : List WindowScript)
    (tClean : ℤ) (cleanOffOk : Bool) (t0 : ℤ) (s : ControllerState) :
    ((runWindows s ws).1.command_count_ON
        = s.command_count_ON + succWrites Cmd.ON (runWindows s ws).2 ∧
     (runWindows s ws).1.command_count_OFF
        = s.command_count_OFF + succWrites Cmd.OFF (runWindows s ws).2) ∧
    ((process_commands oracle ws tClean cleanOffOk (initState t0)).1.command_count_ON
        = succWrites Cmd.ON (process_commands oracle ws tClean cleanOffOk (initState t0)).2 ∧
     (process_commands oracle ws tClean cleanOffOk (initState t0)).1.command_count_OFF
        = succWrites Cmd.OFF (process_commands oracle ws tClean cleanOffOk (initState t0)).2) := by
  refine ⟨runWindows_counts ws s, ?_⟩
  by_cases hconn : (connect oracle).1 = true
  · simp only [process_commands, hconn, if_true, succWrites_append]
    have hrw := runWindows_counts ws (initState t0)
    have hcl := cleanup_counts (runWindows (initState t0) ws).1 true tClean cleanOffOk
    constructor
    · rw [hcl.1, hrw.1]
      simp [initState]
    · rw [hcl.2, hrw.2]
      simp [initState]
  · rw [Bool.not_eq_true] at hconn
    simp [process_commands, hconn, succWrites, initState]
